import Mathlib

set_option maxRecDepth 100000

/-!
Verification of the pipeline orchestrator in `src/main.py` of the
Chiro-backend repository (upload → blob storage → asynchronous speech
transcription with polling → transcript extraction → fan-out to three
text-generation calls).

Python strings are embedded as `List Char`; the Python string operations
used by the source (`strip`, `lower`, `endswith`, `startswith`,
`replace(old, '')`) are given explicit definitions below.  HTTP calls to
the external collaborators (blob store, speech service, generation model)
are embedded as explicit response data passed into the functions, and the
orchestrator records the remote calls it makes in a trace so that claims
about which calls happen (and with which arguments) can be stated.
-/

/-- `str.strip()` of Python: drop leading and trailing whitespace. -/
def pyStrip (s : List Char) : List Char :=
  ((s.dropWhile Char.isWhitespace).reverse.dropWhile Char.isWhitespace).reverse

/-- `str.lower()` of Python, for the ASCII strings the source compares. -/
def pyLower (s : List Char) : List Char :=
  s.map Char.toLower

/-- `s.endswith(p)` of Python. -/
def pyEndsWith (s p : List Char) : Bool :=
  p.isSuffixOf s

/-- `s.startswith(p)` of Python. -/
def pyStartsWith (s p : List Char) : Bool :=
  p.isPrefixOf s

/-- One step list of `s.replace(old, '')`: fuel-indexed left-to-right scan
removing every non-overlapping occurrence of `old` (the source only uses
`replace` with an empty replacement string). -/
def pyRemoveAllAux (old : List Char) : Nat → List Char → List Char
  | 0, _ => []
  | _ + 1, [] => []
  | fuel + 1, c :: rest =>
      if pyStartsWith (c :: rest) old ∧ old ≠ [] then
        pyRemoveAllAux old fuel (List.drop old.length (c :: rest))
      else
        c :: pyRemoveAllAux old fuel rest

/-- `s.replace(old, '')` of Python. -/
def pyRemoveAll (s old : List Char) : List Char :=
  pyRemoveAllAux old s.length s

/-- Convenience: the characters of a Lean string literal. -/
def chars (s : String) : List Char := s.data

example : pyStrip (chars "  Hello.  ") = chars "Hello." := by decide
example : pyRemoveAll (chars "``` a ``` b") (chars "```") = chars " a  b" := by decide
example : pyLower (chars "A.WaV") = chars "a.wav" := by decide
example : pyEndsWith (chars "a.wav") (chars ".wav") = true := by decide

/-!
## JSON values

`generate_billing_codes` hands the completion text to `json.loads`.  The
JSON data model and parser below embed the Python library behaviour on the
JSON subset relevant here (objects, arrays, strings with simple escapes,
integers, booleans, null).
-/

/-- A parsed JSON value (the possible results of `json.loads`). -/
inductive JVal where
  | jnull
  | jbool (b : Bool)
  | jnum (n : Int)
  | jstr (s : List Char)
  | jarr (elems : List JVal)
  | jobj (fields : List (List Char × JVal))

/-- JSON insignificant whitespace. -/
def jsonWs (c : Char) : Bool :=
  c = ' ' ∨ c = '\n' ∨ c = '\t' ∨ c = '\r'

/-- Skip insignificant whitespace. -/
def skipWs (s : List Char) : List Char :=
  s.dropWhile jsonWs

/-- Translate a character appearing after a backslash in a JSON string. -/
def jsonUnescape (c : Char) : Char :=
  if c = 'n' then '\n' else if c = 't' then '\t' else if c = 'r' then '\r' else c

/-- Parse the body of a JSON string after the opening quote, up to the
closing quote; returns the decoded characters and the remaining input. -/
def parseStringBody : Nat → List Char → Option (List Char × List Char)
  | 0, _ => none
  | _ + 1, [] => none
  | fuel + 1, c :: rest =>
      if c = '"' then some ([], rest)
      else if c = '\\' then
        match rest with
        | [] => none
        | e :: rest2 =>
            match parseStringBody fuel rest2 with
            | some (tail, rem) => some (jsonUnescape e :: tail, rem)
            | none => none
      else
        match parseStringBody fuel rest with
        | some (tail, rem) => some (c :: tail, rem)
        | none => none

/-- Parse a nonempty run of decimal digits as a natural number. -/
def parseDigits (s : List Char) : Option (Nat × List Char) :=
  let digits := s.takeWhile Char.isDigit
  if digits = [] then none
  else some (digits.foldl (fun acc c => 10 * acc + (c.toNat - '0'.toNat)) 0,
             s.dropWhile Char.isDigit)

mutual

/-- Parse one JSON value (fuel-indexed). -/
def parseValue : Nat → List Char → Option (JVal × List Char)
  | 0, _ => none
  | fuel + 1, input =>
      match skipWs input with
      | [] => none
      | c :: rest =>
          if c = '\x7b' then
            match parseFields fuel rest true with
            | some (fs, rem) => some (.jobj fs, rem)
            | none => none
          else if c = '[' then
            match parseElems fuel rest true with
            | some (es, rem) => some (.jarr es, rem)
            | none => none
          else if c = '"' then
            match parseStringBody (rest.length + 1) rest with
            | some (str, rem) => some (.jstr str, rem)
            | none => none
          else if c = 't' then
            if pyStartsWith (c :: rest) (chars "true") then
              some (.jbool true, (c :: rest).drop 4)
            else none
          else if c = 'f' then
            if pyStartsWith (c :: rest) (chars "false") then
              some (.jbool false, (c :: rest).drop 5)
            else none
          else if c = 'n' then
            if pyStartsWith (c :: rest) (chars "null") then
              some (.jnull, (c :: rest).drop 4)
            else none
          else if c = '-' then
            match parseDigits rest with
            | some (n, rem) => some (.jnum (-(n : Int)), rem)
            | none => none
          else
            match parseDigits (c :: rest) with
            | some (n, rem) => some (.jnum (n : Int), rem)
            | none => none

/-- Parse the elements of a JSON array after the opening bracket.
`first` is true when no element has been read yet (so `]` may follow). -/
def parseElems : Nat → List Char → Bool → Option (List JVal × List Char)
  | 0, _, _ => none
  | fuel + 1, input, first =>
      match skipWs input with
      | [] => none
      | c :: rest =>
          if c = ']' ∧ first then some ([], rest)
          else
            match parseValue fuel (c :: rest) with
            | none => none
            | some (v, rem) =>
                match skipWs rem with
                | ',' :: rem2 =>
                    match parseElems fuel rem2 false with
                    | some (vs, rem3) => some (v :: vs, rem3)
                    | none => none
                | ']' :: rem2 => some ([v], rem2)
                | _ => none

/-- Parse the fields of a JSON object after the opening brace.
`first` is true when no field has been read yet. -/
def parseFields : Nat → List Char → Bool → Option (List (List Char × JVal) × List Char)
  | 0, _, _ => none
  | fuel + 1, input, first =>
      match skipWs input with
      | [] => none
      | c :: rest =>
          if c = '\x7d' ∧ first then some ([], rest)
          else if c = '"' then
            match parseStringBody (rest.length + 1) rest with
            | none => none
            | some (key, rem) =>
                match skipWs rem with
                | ':' :: rem2 =>
                    match parseValue fuel rem2 with
                    | none => none
                    | some (v, rem3) =>
                        match skipWs rem3 with
                        | ',' :: rem4 =>
                            match parseFields fuel rem4 false with
                            | some (fs, rem5) => some ((key, v) :: fs, rem5)
                            | none => none
                        | '\x7d' :: rem4 => some ([(key, v)], rem4)
                        | _ => none
                | _ => none
          else none

end

/-- `json.loads`: parse a complete JSON document, requiring only
whitespace after the value; `none` models a raised `JSONDecodeError`. -/
def json_loads (s : List Char) : Option JVal :=
  match parseValue (4 * s.length + 4) s with
  | some (v, rem) => if skipWs rem = [] then some v else none
  | none => none

example :
    json_loads (chars "\x7b\"cpt_codes\": [], \"icd10_codes\": []\x7d")
      = some (.jobj [(chars "cpt_codes", .jarr []), (chars "icd10_codes", .jarr [])]) := by
  rfl

example : json_loads (chars "") = none := by rfl
example : json_loads (chars "```json") = none := by rfl
example : json_loads (chars "[\"a\", -3, true]")
    = some (.jarr [.jstr (chars "a"), .jnum (-3), .jbool true]) := by rfl

/-!
## Billing-code generation (`generate_billing_codes`, main.py 333–380)

The text-generation backend is embedded as the outcome of the chat
completion call: either a raised exception (with its `str(e)` text) or the
completion text.  Everything inside the `try` after that call is embedded
faithfully; the `except` clause returns the fallback structure.
-/

/-- Lines 377–380: the fallback structure returned by the `except` clause,
with `str(e)` interpolated into the first description. -/
def fallbackCodes (errText : List Char) : JVal :=
  .jobj
    [ (chars "cpt_codes",
       .jarr [.jobj [(chars "code", .jstr (chars "Error")),
                     (chars "description",
                      .jstr (chars "Code generation failed: " ++ errText))]]),
      (chars "icd10_codes",
       .jarr [.jobj [(chars "code", .jstr (chars "Error")),
                     (chars "description",
                      .jstr (chars "Please review transcript manually"))]]) ]

/-- The `str(e)` text of a `json.JSONDecodeError`, modelled as a fixed
message (its exact wording is produced by the Python library). -/
def jsonDecodeErrText : List Char := chars "Expecting value"

/-- Lines 369–370: the markdown-fence handling applied to the stripped
completion text before `json.loads`. -/
def stripCodeFence (t : List Char) : List Char :=
  if pyStartsWith t (chars "```json") then
    pyStrip (pyRemoveAll (pyRemoveAll t (chars "```json")) (chars "```"))
  else t

/-- `generate_billing_codes` (lines 355–380): on a backend exception return
the fallback; otherwise strip, defensively unfence, and `json.loads` the
completion, returning the parsed value or, when parsing raises, the
fallback. -/
def generate_billing_codes (backend : Except (List Char) (List Char)) : JVal :=
  match backend with
  | .error e => fallbackCodes e
  | .ok completion =>
      let stripped := pyStrip completion
      let codes_text := stripCodeFence stripped
      match json_loads codes_text with
      | some v => v
      | none => fallbackCodes jsonDecodeErrText

/-- Field access on a parsed JSON object. -/
def jlookup : List (List Char × JVal) → List Char → Option JVal
  | [], _ => none
  | (k, v) :: rest, key => if k = key then some v else jlookup rest key

/-- Whether a JSON value is a dict holding both a `cpt_codes` and an
`icd10_codes` list (the well-formed `StructuredCodes` shape). -/
def hasCodeLists (v : JVal) : Bool :=
  match v with
  | .jobj fields =>
      (match jlookup fields (chars "cpt_codes") with
       | some (.jarr _) => true
       | _ => false)
      &&
      (match jlookup fields (chars "icd10_codes") with
       | some (.jarr _) => true
       | _ => false)
  | _ => false

/-- Whether every entry of both code lists of `v` carries the code
`"Error"` together with a nonempty description. -/
def allEntriesErrorCoded (v : JVal) : Bool :=
  match v with
  | .jobj fields =>
      (match jlookup fields (chars "cpt_codes"), jlookup fields (chars "icd10_codes") with
       | some (.jarr cpt), some (.jarr icd) =>
           (cpt ++ icd).all fun entry =>
             match entry with
             | .jobj efields =>
                 (match jlookup efields (chars "code") with
                  | some (.jstr c) => c == chars "Error"
                  | _ => false) &&
                 (match jlookup efields (chars "description") with
                  | some (.jstr d) => !d.isEmpty
                  | _ => false)
             | _ => false
       | _, _ => false)
  | _ => false

example : hasCodeLists (fallbackCodes (chars "boom")) = true := by rfl
example : allEntriesErrorCoded (fallbackCodes (chars "boom")) = true := by rfl
example : generate_billing_codes (.ok (chars "\x7b\x7d")) = .jobj [] := by rfl
example : generate_billing_codes (.ok (chars "not json"))
    = fallbackCodes jsonDecodeErrText := by rfl

/-!
## Transcription driver (`transcribe_audio`, main.py 159–253)

The remote speech service is embedded as explicit response data: the HTTP
status of the submission `POST`, and for each poll tick `i` the status
`GET` response together with the manifest (`files`) response and the
content fetch outcome for each manifest entry.
-/

/-- One entry of `files_data['values']`, together with the outcome of the
`GET` on its content URL: the HTTP status flag and, when 200, the parsed
`combinedRecognizedPhrases` (each phrase's optional `display` field;
an absent `combinedRecognizedPhrases` key behaves as the empty list). -/
structure ManifestFile where
  kind : String
  contentHttpOk : Bool
  phrases : List (Option (List Char))
deriving DecidableEq

/-- The remote behaviour observed at one poll tick: the status `GET`
(its HTTP 200 flag, the reported job status, and the optional
`error.message`), plus the manifest `GET` outcome used when the job
status is `Succeeded`. -/
structure StatusResponse where
  httpOk : Bool
  jobStatus : String
  errorMessage : Option (List Char)
  filesHttpOk : Bool
  files : List ManifestFile
deriving DecidableEq

/-- Lines 233–235: fold the phrases into `combined_text`, appending each
phrase's `display` (default `''`) plus one space. -/
def combinedText (phrases : List (Option (List Char))) : List Char :=
  phrases.foldl (fun acc p => acc ++ p.getD [] ++ [' ']) []

/-- Lines 237–239: strip the combined text and apply the
`result or "No transcription available"` fallback. -/
def transcriptOfPhrases (phrases : List (Option (List Char))) : List Char :=
  let result := pyStrip (combinedText phrases)
  if result = [] then chars "No transcription available" else result

/-- Lines 224–228: scan the manifest for a file of kind `Transcription`
whose content fetch returns 200; any other entry (wrong kind, or a non-200
content fetch) is skipped. -/
def findTranscriptionContent : List ManifestFile → Option (List (Option (List Char)))
  | [] => none
  | f :: rest =>
      if f.kind = "Transcription" ∧ f.contentHttpOk then some f.phrases
      else findTranscriptionContent rest

/-- Outcome of `transcribe_audio`: a returned transcript, or a raised
`HTTPException(status_code, detail)`. -/
inductive PollResult where
  | ok (transcript : List Char)
  | httpError (status : Nat) (detail : List Char)
deriving DecidableEq

/-- Lines 199–247: the poll loop `for attempt in range(60)`.  `resp i` is
the remote behaviour at tick `i`; `fuel` is the number of remaining
attempts and `i` the index of the next tick.  Returns the outcome together
with the total number of poll ticks performed.  A non-200 status response,
a non-200 manifest response, and a manifest without a usable
`Transcription` entry each `continue` to the next attempt; exhausting the
60 attempts raises `HTTPException(408, "Transcription timeout")`. -/
def pollLoop (resp : Nat → StatusResponse) : Nat → Nat → PollResult × Nat
  | 0, i => (.httpError 408 (chars "Transcription timeout"), i)
  | fuel + 1, i =>
      let r := resp i
      if r.httpOk = false then pollLoop resp fuel (i + 1)
      else if r.jobStatus = "Succeeded" then
        if r.filesHttpOk = false then pollLoop resp fuel (i + 1)
        else
          match findTranscriptionContent r.files with
          | some phrases => (.ok (transcriptOfPhrases phrases), i + 1)
          | none => pollLoop resp fuel (i + 1)
      else if r.jobStatus = "Failed" then
        (.httpError 500
          (chars "Transcription failed: " ++ r.errorMessage.getD (chars "Unknown error")),
         i + 1)
      else pollLoop resp fuel (i + 1)

/-- The remote speech service as observed by one `transcribe_audio` run:
the submission response and the per-tick poll behaviour. -/
structure SpeechService where
  submitStatus : Nat
  submitErrorText : List Char
  poll : Nat → StatusResponse

/-- `transcribe_audio` (lines 159–253): lines 184–196 raise
`HTTPException(500, ...)` unless the submission `POST` returns 201;
otherwise the poll loop runs with 60 attempts. -/
def transcribe_audio (svc : SpeechService) : PollResult × Nat :=
  if svc.submitStatus ≠ 201 then
    (.httpError 500 (chars "Failed to start transcription: " ++ svc.submitErrorText), 0)
  else
    pollLoop svc.poll 60 0

/-!
## Orchestrator (`upload_and_process`, main.py 75–124)

The orchestrator is embedded with an explicit trace of the remote calls it
makes, in evaluation order; the generation backends are functions from the
transcript passed to them to the chat-completion outcome (exception text
or completion text), so the trace records exactly which transcript each
generation call receives.
-/

/-- A remote call made by the pipeline, with the transcript argument for
the generation calls. -/
inductive RemoteCall where
  | blobUpload
  | submitJob
  | genSoap (transcript : List Char)
  | genReferral (transcript : List Char)
  | genCodes (transcript : List Char)
deriving DecidableEq

/-- `generate_soap_note` (lines 255–294): return the stripped completion,
or raise `HTTPException(500, ...)` on a backend exception. -/
def generate_soap_note (backend : List Char → Except (List Char) (List Char))
    (transcript : List Char) : Except (Nat × List Char) (List Char) :=
  match backend transcript with
  | .ok text => .ok (pyStrip text)
  | .error e => .error (500, chars "SOAP note generation failed: " ++ e)

/-- `generate_referral_letter` (lines 296–331): return the stripped
completion, or raise `HTTPException(500, ...)` on a backend exception. -/
def generate_referral_letter (backend : List Char → Except (List Char) (List Char))
    (transcript : List Char) : Except (Nat × List Char) (List Char) :=
  match backend transcript with
  | .ok text => .ok (pyStrip text)
  | .error e => .error (500, chars "Referral letter generation failed: " ++ e)

/-- Line 84: the whitelisted audio extensions. -/
def allowedExts : List (List Char) :=
  [chars ".wav", chars ".mp3", chars ".m4a", chars ".flac"]

/-- Lines 84–85: `file.filename.lower().endswith(('.wav','.mp3','.m4a','.flac'))`. -/
def validFilename (filename : List Char) : Bool :=
  allowedExts.any fun e => pyEndsWith (pyLower filename) e

/-- The environment of one `/upload` request: the filename and the
behaviour of every external collaborator. -/
structure Env where
  filename : List Char
  blob : Except (List Char) Unit
  speech : SpeechService
  soapBackend : List Char → Except (List Char) (List Char)
  referralBackend : List Char → Except (List Char) (List Char)
  codesBackend : List Char → Except (List Char) (List Char)

/-- Outcome of `upload_and_process`: the `TranscriptionResponse` fields on
success, or the raised `HTTPException`. -/
inductive PipeOutcome where
  | ok (transcript soap_note referral_letter : List Char) (codes : JVal)
  | err (status : Nat) (detail : List Char)

/-- `upload_and_process` (lines 75–124): validate the extension (400 before
any remote call), upload the blob (500 on failure), transcribe, then run
the three generation calls sequentially; an `HTTPException` raised by any
stage propagates, aborting the remaining stages.  The second component is
the trace of remote calls, in order. -/
def upload_and_process (env : Env) : PipeOutcome × List RemoteCall :=
  if validFilename env.filename = false then
    (.err 400 (chars "Invalid file type. Please upload audio files only."), [])
  else
    match env.blob with
    | .error e => (.err 500 (chars "Blob upload failed: " ++ e), [.blobUpload])
    | .ok _ =>
        match transcribe_audio env.speech with
        | (.httpError st d, _) => (.err st d, [.blobUpload, .submitJob])
        | (.ok transcript, _) =>
            match generate_soap_note env.soapBackend transcript with
            | .error (st, d) =>
                (.err st d, [.blobUpload, .submitJob, .genSoap transcript])
            | .ok soap =>
                match generate_referral_letter env.referralBackend transcript with
                | .error (st, d) =>
                    (.err st d,
                     [.blobUpload, .submitJob, .genSoap transcript, .genReferral transcript])
                | .ok referral =>
                    (.ok transcript soap referral
                       (generate_billing_codes (env.codesBackend transcript)),
                     [.blobUpload, .submitJob, .genSoap transcript,
                      .genReferral transcript, .genCodes transcript])

/-!
## Spec-side definitions and concrete environments

`specJoin`/`specNormalize` follow the specification's words for the
normalization rule ("concatenate all recognized phrases' display text in
manifest order, separated by a single space, then trim leading/trailing
whitespace") to be compared against the source-side `transcriptOfPhrases`.
The concrete services and environments below instantiate the embedding at
the explicit inputs used by the scenario claims.
-/

/-- Spec-side: join texts in order, separated by a single space. -/
def specJoin : List (List Char) → List Char
  | [] => []
  | [d] => d
  | d :: rest => d ++ ' ' :: specJoin rest

/-- Spec-side normalization: space-join then trim. -/
def specNormalize (displays : List (List Char)) : List Char :=
  pyStrip (specJoin displays)

/-- A poll tick whose status response reports `Running`. -/
def runningTick : StatusResponse :=
  { httpOk := true, jobStatus := "Running", errorMessage := none,
    filesHttpOk := false, files := [] }

/-- A `Succeeded` poll tick whose manifest and content fetches succeed,
with the given phrases in the single `Transcription` file. -/
def succTick (phrases : List (Option (List Char))) : StatusResponse :=
  { httpOk := true, jobStatus := "Succeeded", errorMessage := none,
    filesHttpOk := true,
    files := [{ kind := "Transcription", contentHttpOk := true, phrases := phrases }] }

/-- A `Succeeded` poll tick whose manifest holds no `Transcription` file. -/
def succNoFileTick : StatusResponse :=
  { httpOk := true, jobStatus := "Succeeded", errorMessage := none,
    filesHttpOk := true,
    files := [{ kind := "Audio", contentHttpOk := true, phrases := [] }] }

/-- A service accepting the submission whose job then stays `Running`. -/
def svcRunning : SpeechService :=
  { submitStatus := 201, submitErrorText := [], poll := fun _ => runningTick }

/-- A service accepting the submission whose job reports `Succeeded` on
every tick but never offers a `Transcription` manifest entry. -/
def svcSuccNoFile : SpeechService :=
  { submitStatus := 201, submitErrorText := [], poll := fun _ => succNoFileTick }

/-- A service answering the submission `POST` with HTTP 202. -/
def svc202 : SpeechService :=
  { submitStatus := 202, submitErrorText := chars "accepted", poll := fun _ => runningTick }

/-- A service accepting the submission whose job succeeds at the first
tick with an empty phrase list. -/
def svcEmptyPhrases : SpeechService :=
  { submitStatus := 201, submitErrorText := [], poll := fun _ => succTick [] }

/-- The end-to-end scenario phrase. -/
def lbp : List Char := chars "Patient reports low back pain."

/-- The end-to-end scenario service: accepted submission, one `Running`
tick, then `Succeeded` with the single phrase `lbp`. -/
def svcScenario : SpeechService :=
  { submitStatus := 201, submitErrorText := [],
    poll := fun i => if i = 0 then runningTick else succTick [some lbp] }

/-- Build a request environment with a successful blob upload. -/
def mkEnv (filename : List Char) (svc : SpeechService)
    (soap referral codes : List Char → Except (List Char) (List Char)) : Env :=
  { filename := filename, blob := .ok (), speech := svc,
    soapBackend := soap, referralBackend := referral, codesBackend := codes }

/-- Scenario environment whose SOAP backend raises. -/
def envSoapFail : Env :=
  mkEnv (chars "visit.wav") svcScenario
    (fun _ => .error (chars "model unavailable"))
    (fun _ => .ok (chars "letter"))
    (fun _ => .ok (chars "\x7b\x7d"))

/-- Environment for an upload named `notes.txt`. -/
def envTxt : Env :=
  mkEnv (chars "notes.txt") svcRunning
    (fun _ => .ok []) (fun _ => .ok []) (fun _ => .ok [])

/-- A valid billing-code JSON document (the shape requested by the
prompt). -/
def innerCodesJson : List Char :=
  chars "\x7b\"cpt_codes\": [\x7b\"code\": \"98940\", \"description\": \"CMT\"\x7d], \"icd10_codes\": [\x7b\"code\": \"M54.5\", \"description\": \"Low back pain\"\x7d]\x7d"

/-- The parsed value of `innerCodesJson`. -/
def innerCodesVal : JVal :=
  .jobj
    [ (chars "cpt_codes",
       .jarr [.jobj [(chars "code", .jstr (chars "98940")),
                     (chars "description", .jstr (chars "CMT"))]]),
      (chars "icd10_codes",
       .jarr [.jobj [(chars "code", .jstr (chars "M54.5")),
                     (chars "description", .jstr (chars "Low back pain"))]]) ]

/-- `innerCodesJson` wrapped in a bare triple-backtick fence. -/
def bareFenced : List Char :=
  chars "```\n" ++ innerCodesJson ++ chars "\n```"

/-- `innerCodesJson` wrapped in a ```json fence. -/
def jsonFenced : List Char :=
  chars "```json\n" ++ innerCodesJson ++ chars "\n```"

example : json_loads innerCodesJson = some innerCodesVal := by rfl
example : generate_billing_codes (.ok jsonFenced) = innerCodesVal := by rfl
example : generate_billing_codes (.ok bareFenced) = fallbackCodes jsonDecodeErrText := by rfl
example : (transcribe_audio svcScenario) = (.ok lbp, 2) := by rfl
example : (transcribe_audio svcSuccNoFile)
    = (.httpError 408 (chars "Transcription timeout"), 60) := by rfl

/-!
## Helper lemmas
-/

lemma dropWhile_append_of_ne_nil {p : Char → Bool} {s : List Char} (t : List Char)
    (h : s.dropWhile p ≠ []) : (s ++ t).dropWhile p = s.dropWhile p ++ t := by
  induction s with
  | nil => simp at h
  | cons c cs ih =>
      by_cases hc : p c
      · simp only [List.cons_append, List.dropWhile_cons, hc, if_true] at h ⊢
        exact ih h
      · simp [List.dropWhile_cons, hc]

lemma dropWhile_append_of_nil {p : Char → Bool} {s : List Char} (t : List Char)
    (h : s.dropWhile p = []) : (s ++ t).dropWhile p = t.dropWhile p := by
  induction s with
  | nil => simp
  | cons c cs ih =>
      by_cases hc : p c
      · simp only [List.cons_append, List.dropWhile_cons, hc, if_true] at h ⊢
        exact ih h
      · simp [List.dropWhile_cons, hc] at h

lemma pyStrip_append_space (s : List Char) : pyStrip (s ++ [' ']) = pyStrip s := by
  unfold pyStrip
  rcases eq_or_ne (s.dropWhile Char.isWhitespace) [] with h | h
  · rw [dropWhile_append_of_nil _ h, h]
    decide
  · rw [dropWhile_append_of_ne_nil _ h, List.reverse_append]
    simp [List.dropWhile_cons]

lemma combinedText_acc (phrases : List (Option (List Char))) (acc : List Char) :
    phrases.foldl (fun a p => a ++ p.getD [] ++ [' ']) acc
      = acc ++ (phrases.map fun p => p.getD [] ++ [' ']).flatten := by
  induction phrases generalizing acc with
  | nil => simp
  | cons p rest ih =>
      rw [List.foldl_cons, ih]
      simp [List.append_assoc]

lemma flatten_space_eq_specJoin (ds : List (List Char)) (h : ds ≠ []) :
    (ds.map fun d => d ++ [' ']).flatten = specJoin ds ++ [' '] := by
  induction ds with
  | nil => exact absurd rfl h
  | cons d rest ih =>
      cases rest with
      | nil => simp [specJoin]
      | cons e rest2 =>
          rw [List.map_cons, List.flatten_cons, ih (by simp)]
          simp [specJoin, List.append_assoc]

lemma pyStrip_combinedText (phrases : List (Option (List Char))) :
    pyStrip (combinedText phrases) = specNormalize (phrases.map fun p => p.getD []) := by
  unfold combinedText specNormalize
  cases phrases with
  | nil => rfl
  | cons p rest =>
      rw [combinedText_acc, List.nil_append]
      have hmm : ((p :: rest).map fun q => q.getD [] ++ [' '])
          = (((p :: rest).map fun q => q.getD []).map fun d => d ++ [' ']) := by
        simp
      rw [hmm, flatten_space_eq_specJoin _ (by simp), pyStrip_append_space]

/-- A poll tick after which the loop continues: `continue` on a non-200
status response, a non-terminal status, a non-200 manifest response, or a
manifest without a usable `Transcription` entry. -/
def nonTerminalTick (r : StatusResponse) : Prop :=
  r.httpOk = false
  ∨ (r.jobStatus ≠ "Succeeded" ∧ r.jobStatus ≠ "Failed")
  ∨ (r.jobStatus = "Succeeded"
      ∧ (r.filesHttpOk = false ∨ findTranscriptionContent r.files = none))

lemma pollLoop_step (resp : Nat → StatusResponse) (fuel i : Nat)
    (h : nonTerminalTick (resp i)) :
    pollLoop resp (fuel + 1) i = pollLoop resp fuel (i + 1) := by
  rcases h with h | ⟨h1, h2⟩ | ⟨h1, h2⟩
  · simp [pollLoop, h]
  · cases hok : (resp i).httpOk with
    | false => simp [pollLoop, hok]
    | true => simp [pollLoop, hok, h1, h2]
  · cases hok : (resp i).httpOk with
    | false => simp [pollLoop, hok]
    | true =>
        rcases h2 with h2 | h2
        · simp [pollLoop, hok, h1, h2]
        · simp [pollLoop, hok, h1, h2]

lemma pollLoop_all_nonterminal (resp : Nat → StatusResponse) (fuel i : Nat)
    (h : ∀ j, i ≤ j → j < i + fuel → nonTerminalTick (resp j)) :
    pollLoop resp fuel i = (.httpError 408 (chars "Transcription timeout"), i + fuel) := by
  induction fuel generalizing i with
  | zero => simp [pollLoop]
  | succ n ih =>
      rw [pollLoop_step resp n i (h i (le_refl i) (by omega))]
      rw [ih (i + 1) (fun j hj1 hj2 => h j (by omega) (by omega))]
      congr 1
      omega

lemma jsonWs_backtick : jsonWs '`' = false := by decide

lemma parseValue_backtick (fuel : Nat) (t : List Char) :
    parseValue fuel ('`' :: t) = none := by
  cases fuel with
  | zero => rfl
  | succ n =>
      have hskip : skipWs ('`' :: t) = '`' :: t := by
        simp [skipWs, List.dropWhile_cons, jsonWs_backtick]
      have hdigit : Char.isDigit '`' = false := by decide
      have hdig : parseDigits ('`' :: t) = none := by
        simp [parseDigits, List.takeWhile_cons, hdigit]
      simp only [parseValue, hskip]
      rw [if_neg (by decide), if_neg (by decide), if_neg (by decide), if_neg (by decide),
          if_neg (by decide), if_neg (by decide), if_neg (by decide), hdig]

lemma json_loads_backtick (t : List Char) : json_loads ('`' :: t) = none := by
  unfold json_loads
  rw [parseValue_backtick]

lemma running_ne_succeeded : ("Running" : String) ≠ "Succeeded" := by decide

lemma running_ne_failed : ("Running" : String) ≠ "Failed" := by decide

/-!
## Claim theorems
-/

/-- C1 counterexample: a completed transcription whose phrase list is
empty returns the sentinel string `"No transcription available"`, not the
explicit empty transcript required by the claim. -/
theorem empty_phrases_sentinel_counterexample :
    (transcribe_audio svcEmptyPhrases).1 = .ok (chars "No transcription available")
    ∧ chars "No transcription available" ≠ ([] : List Char) := by
  exact ⟨rfl, by decide⟩

/-- C1 (amended): for every completed transcription result, the returned
transcript equals the space-separated concatenation of the phrases'
display texts, trimmed — except that an empty normalized result is
replaced by the sentinel `"No transcription available"` rather than the
empty string; in particular the single phrase `display = "Hello."` yields
exactly `"Hello."` and the empty phrase list yields the sentinel. -/
theorem transcript_normalization_amended :
    (∀ phrases : List (Option (List Char)),
        transcriptOfPhrases phrases =
          if specNormalize (phrases.map fun p => p.getD []) = []
          then chars "No transcription available"
          else specNormalize (phrases.map fun p => p.getD []))
    ∧ transcriptOfPhrases [some (chars "Hello.")] = chars "Hello."
    ∧ transcriptOfPhrases [] = chars "No transcription available" := by
  refine ⟨fun phrases => ?_, by decide, by decide⟩
  simp only [transcriptOfPhrases]
  rw [pyStrip_combinedText]

/-- C2 counterexample: a job that reports `Succeeded` on every tick with a
manifest holding no `Transcription`-kind file does not fail with an
extraction error — the driver keeps polling through all 60 ticks and then
raises the 408 timeout. -/
theorem succeeded_no_manifest_counterexample :
    transcribe_audio svcSuccNoFile
      = (.httpError 408 (chars "Transcription timeout"), 60) := by
  rfl

/-- C2 (amended): when a job reaches `Succeeded` but its result manifest
contains no usable file of kind `Transcription`, the driver treats the
tick as a no-op and continues polling; if that persists, the operation
fails with the 408 timeout error (there is no extraction-error path). -/
theorem succeeded_no_manifest_keeps_polling (svc : SpeechService)
    (hsub : svc.submitStatus = 201)
    (h : ∀ j, j < 60 →
        (svc.poll j).jobStatus = "Succeeded"
        ∧ findTranscriptionContent (svc.poll j).files = none) :
    transcribe_audio svc = (.httpError 408 (chars "Transcription timeout"), 60) := by
  unfold transcribe_audio
  rw [if_neg (by simp [hsub])]
  have := pollLoop_all_nonterminal svc.poll 60 0
    (fun j hj1 hj2 => Or.inr (Or.inr ⟨(h j (by omega)).1, Or.inr (h j (by omega)).2⟩))
  simpa using this

/-- C2 witness: the amended theorem applied to the concrete service whose
manifest only ever offers an `Audio` file. -/
theorem succeeded_no_manifest_keeps_polling_witness :
    transcribe_audio svcSuccNoFile
      = (.httpError 408 (chars "Transcription timeout"), 60) :=
  succeeded_no_manifest_keeps_polling svcSuccNoFile rfl
    (fun _ _ => ⟨rfl, rfl⟩)

/-- C3 (confirmed): if the job never reaches a terminal remote status
during the 60-tick budget, the driver performs exactly the 60 budgeted
poll ticks — none past the deadline — and fails with the 408 timeout,
which is distinct from every 500 error used for a remote-reported
`Failed`. -/
theorem polling_deadline_and_timeout_class (svc : SpeechService)
    (hsub : svc.submitStatus = 201)
    (h : ∀ j, j < 60 → (svc.poll j).httpOk = true →
        (svc.poll j).jobStatus ≠ "Succeeded" ∧ (svc.poll j).jobStatus ≠ "Failed") :
    transcribe_audio svc = (.httpError 408 (chars "Transcription timeout"), 60)
    ∧ (transcribe_audio svc).2 ≤ 60
    ∧ ∀ d, (transcribe_audio svc).1 ≠ PollResult.httpError 500 d := by
  have hrun : transcribe_audio svc
      = (.httpError 408 (chars "Transcription timeout"), 60) := by
    unfold transcribe_audio
    rw [if_neg (by simp [hsub])]
    have := pollLoop_all_nonterminal svc.poll 60 0 (fun j hj1 hj2 => by
      rcases Bool.eq_false_or_eq_true (svc.poll j).httpOk with hok | hok
      · exact Or.inr (Or.inl (h j (by omega) hok))
      · exact Or.inl hok)
    simpa using this
  refine ⟨hrun, by rw [hrun], fun d => by rw [hrun]; simp⟩

/-- C3 witness: the theorem applied to a service whose job stays
`Running` on every tick. -/
theorem polling_deadline_and_timeout_class_witness :
    transcribe_audio svcRunning
      = (.httpError 408 (chars "Transcription timeout"), 60) :=
  (polling_deadline_and_timeout_class svcRunning rfl
      (fun _ _ _ => ⟨running_ne_succeeded, running_ne_failed⟩)).1

/-- C4 counterexample: with the SOAP backend failing, the request aborts
with HTTP 500 right after the SOAP call; the trace contains no
referral-letter and no billing-code call, so those documents were never
attempted. -/
theorem soap_failure_blocks_others_counterexample :
    upload_and_process envSoapFail
      = (.err 500 (chars "SOAP note generation failed: model unavailable"),
         [.blobUpload, .submitJob, .genSoap lbp]) := by
  rfl

/-- C4 (amended): generation failures are handled sequentially, not
per-document — a SOAP-note failure aborts the request with HTTP 500 and
the referral-letter and billing-code calls are never attempted; only the
billing-code document is isolated: once SOAP and referral succeed, the
response always carries a billing-code value (parsed or Error fallback),
whatever its backend does. -/
theorem document_failure_policy (env : Env) (t : List Char) (n : Nat)
    (hv : validFilename env.filename = true)
    (hb : env.blob = Except.ok ())
    (ht : transcribe_audio env.speech = (.ok t, n)) :
    (∀ e, env.soapBackend t = .error e →
        upload_and_process env
          = (.err 500 (chars "SOAP note generation failed: " ++ e),
             [.blobUpload, .submitJob, .genSoap t]))
    ∧ (∀ soap referral, env.soapBackend t = .ok soap →
        env.referralBackend t = .ok referral →
        upload_and_process env
          = (.ok t (pyStrip soap) (pyStrip referral)
               (generate_billing_codes (env.codesBackend t)),
             [.blobUpload, .submitJob, .genSoap t, .genReferral t, .genCodes t])) := by
  constructor
  · intro e he
    simp [upload_and_process, hv, hb, ht, generate_soap_note, he]
  · intro soap referral hs hr
    simp [upload_and_process, hv, hb, ht, generate_soap_note, hs,
          generate_referral_letter, hr]

/-- C4 witness: the amended theorem applied to the scenario environment
whose SOAP backend raises. -/
theorem document_failure_policy_witness :
    upload_and_process envSoapFail
      = (.err 500 (chars "SOAP note generation failed: " ++ chars "model unavailable"),
         [.blobUpload, .submitJob, .genSoap lbp]) :=
  (document_failure_policy envSoapFail lbp 2 (by decide) rfl rfl).1
    (chars "model unavailable") rfl

/-- C5 counterexample: the completion text `"{}"` does not parse as the
expected `cpt_codes`/`icd10_codes` structure, yet the generator returns
the parsed empty dict as-is — not a well-formed `StructuredCodes` value
and without any `"Error"`-coded entry. -/
theorem billing_wrong_shape_counterexample :
    generate_billing_codes (.ok (chars "\x7b\x7d")) = .jobj []
    ∧ hasCodeLists (.jobj []) = false
    ∧ allEntriesErrorCoded (.jobj []) = false := ⟨rfl, rfl, rfl⟩

/-- C5 (amended): for every completion whose text is not valid JSON (fails
`json.loads` after stripping and fence handling), the generator returns
the fallback structure whose entries carry the code `"Error"` and a
human-readable description; a completion that parses as JSON is returned
as parsed, even when it is not the expected structure. -/
theorem billing_fallback_on_invalid_json (completion : List Char)
    (h : json_loads (stripCodeFence (pyStrip completion)) = none) :
    generate_billing_codes (.ok completion) = fallbackCodes jsonDecodeErrText
    ∧ hasCodeLists (generate_billing_codes (.ok completion)) = true
    ∧ allEntriesErrorCoded (generate_billing_codes (.ok completion)) = true := by
  have hg : generate_billing_codes (.ok completion)
      = fallbackCodes jsonDecodeErrText := by
    simp [generate_billing_codes, h]
  exact ⟨hg, by rw [hg]; rfl, by rw [hg]; rfl⟩

/-- C5 witness: the amended theorem applied to the completion
`"not json"`. -/
theorem billing_fallback_on_invalid_json_witness :
    generate_billing_codes (.ok (chars "not json"))
      = fallbackCodes jsonDecodeErrText :=
  (billing_fallback_on_invalid_json (chars "not json") rfl).1

/-- C6 (confirmed): for an accepted submission with poll responses
`Running` then `Succeeded` carrying the single phrase
`"Patient reports low back pain."`, the pipeline's transcript is exactly
that string, and each of the three generation calls is made with exactly
that string as its transcript argument. -/
theorem end_to_end_scenario (s r c : List Char) :
    (upload_and_process (mkEnv (chars "visit.wav") svcScenario
        (fun _ => .ok s) (fun _ => .ok r) (fun _ => .ok c))).2
      = [.blobUpload, .submitJob, .genSoap lbp, .genReferral lbp, .genCodes lbp]
    ∧ ∃ soap referral codes,
        (upload_and_process (mkEnv (chars "visit.wav") svcScenario
            (fun _ => .ok s) (fun _ => .ok r) (fun _ => .ok c))).1
          = .ok lbp soap referral codes := by
  exact ⟨rfl, pyStrip s, pyStrip r, generate_billing_codes (.ok c), rfl⟩

/-- C7 (confirmed): an upload whose filename does not end
(case-insensitively) in one of `.wav`, `.mp3`, `.m4a`, `.flac` fails with
HTTP 400 and an empty remote-call trace — no storage, transcription or
generation call is made. -/
theorem invalid_extension_fast_fail (env : Env)
    (h : ∀ e ∈ allowedExts, pyEndsWith (pyLower env.filename) e = false) :
    upload_and_process env
      = (.err 400 (chars "Invalid file type. Please upload audio files only."), []) := by
  have hv : validFilename env.filename = false := by
    unfold validFilename
    rw [List.any_eq_false]
    intro e he
    simp [h e he]
  simp [upload_and_process, hv]

/-- C7 witness: the theorem applied to the upload named `notes.txt`. -/
theorem invalid_extension_fast_fail_witness :
    upload_and_process envTxt
      = (.err 400 (chars "Invalid file type. Please upload audio files only."), []) :=
  invalid_extension_fast_fail envTxt (by decide)

/-- C8 counterexample: a submission answered with HTTP 202 — a documented
"job accepted" status — is rejected by the driver, which raises the 500
submission failure instead of polling. -/
theorem submission_202_rejected :
    transcribe_audio svc202
      = (.httpError 500 (chars "Failed to start transcription: accepted"), 0) := by
  rfl

/-- C8 (amended): submission succeeds exactly when the remote answers
HTTP 201; any other status — including 202 — raises the 500 submission
failure carrying the response text. -/
theorem submission_requires_201 (svc : SpeechService) :
    (svc.submitStatus ≠ 201 →
        transcribe_audio svc
          = (.httpError 500
              (chars "Failed to start transcription: " ++ svc.submitErrorText), 0))
    ∧ (svc.submitStatus = 201 →
        transcribe_audio svc = pollLoop svc.poll 60 0) := by
  constructor
  · intro h
    simp [transcribe_audio, h]
  · intro h
    simp [transcribe_audio, h]

/-- C8 witness: the amended theorem applied to the 202-answering
service. -/
theorem submission_requires_201_witness :
    transcribe_audio svc202
      = (.httpError 500
          (chars "Failed to start transcription: " ++ svc202.submitErrorText), 0) :=
  (submission_requires_201 svc202).1 (by decide)

/-- C9 counterexample: a completion whose text is valid billing-code JSON
wrapped in a bare triple-backtick fence (no `json` tag): the inner JSON
parses, but the generator does not strip the bare fence and returns the
Error fallback instead of the real codes. -/
theorem bare_fence_not_stripped :
    json_loads innerCodesJson = some innerCodesVal
    ∧ generate_billing_codes (.ok bareFenced) = fallbackCodes jsonDecodeErrText
    ∧ allEntriesErrorCoded (fallbackCodes jsonDecodeErrText) = true
    ∧ allEntriesErrorCoded innerCodesVal = false := ⟨rfl, rfl, rfl, rfl⟩

/-- C9 (amended): the generator strips fences only when the stripped
completion starts with ```json (such completions parse to the real
codes, as on the fenced example); a completion starting with a bare
``` fence is left unstripped and always produces the Error fallback. -/
theorem fence_handling_amended (completion : List Char)
    (hbare : pyStartsWith (pyStrip completion) (chars "```") = true)
    (hnotjson : pyStartsWith (pyStrip completion) (chars "```json") = false) :
    generate_billing_codes (.ok completion) = fallbackCodes jsonDecodeErrText
    ∧ generate_billing_codes (.ok jsonFenced) = innerCodesVal := by
  refine ⟨?_, rfl⟩
  have hsf : stripCodeFence (pyStrip completion) = pyStrip completion := by
    simp [stripCodeFence, hnotjson]
  have hpre : chars "```" <+: pyStrip completion := by
    rw [← List.isPrefixOf_iff_prefix]
    exact hbare
  obtain ⟨t, ht⟩ := hpre
  have hform : pyStrip completion = '`' :: ('`' :: '`' :: t) := by
    rw [← ht]
    rfl
  have hjl : json_loads (stripCodeFence (pyStrip completion)) = none := by
    rw [hsf, hform]
    exact json_loads_backtick _
  simp [generate_billing_codes, hjl]

/-- C9 witness: the amended theorem applied to the bare-fenced
completion. -/
theorem fence_handling_amended_witness :
    generate_billing_codes (.ok bareFenced) = fallbackCodes jsonDecodeErrText :=
  (fence_handling_amended bareFenced rfl rfl).1

/-- C10 counterexample: a backend completion `"[]"` parses as JSON, and
the generator returns the parsed list as-is — a value that is not a dict
containing `cpt_codes` and `icd10_codes` lists. -/
theorem parsed_nonobject_counterexample :
    generate_billing_codes (.ok (chars "[]")) = .jarr []
    ∧ hasCodeLists (.jarr []) = false := ⟨rfl, rfl⟩

/-- C10 (amended): `generate_billing_codes` is total — every backend
behaviour yields a value, never an exception; a backend exception or an
unparseable completion yields the fallback carrying both code lists with
`"Error"`-coded entries, while a completion that parses as JSON is
returned exactly as parsed (and then need not contain the two lists). -/
theorem billing_codes_never_raise (backend : Except (List Char) (List Char)) :
    (hasCodeLists (generate_billing_codes backend) = true
      ∧ allEntriesErrorCoded (generate_billing_codes backend) = true)
    ∨ (∃ completion v, backend = .ok completion
        ∧ json_loads (stripCodeFence (pyStrip completion)) = some v
        ∧ generate_billing_codes backend = v) := by
  match backend with
  | .error e => exact Or.inl ⟨rfl, rfl⟩
  | .ok completion =>
      cases hj : json_loads (stripCodeFence (pyStrip completion)) with
      | none =>
          have hg : generate_billing_codes (.ok completion)
              = fallbackCodes jsonDecodeErrText := by
            simp [generate_billing_codes, hj]
          exact Or.inl ⟨by rw [hg]; rfl, by rw [hg]; rfl⟩
      | some v =>
          exact Or.inr ⟨completion, v, rfl, hj, by simp [generate_billing_codes, hj]⟩
